import Mathlib

/-!
Verification of the cntrl telemetry bridge (apps/bridge/src-tauri/src).

Each Rust function relevant to the checked properties is shallowly embedded
as an executable Lean definition.  Machine integers are modelled as Nat/Int
(with explicit mod where overflow matters), HashMap String usize as an
association list, Instant as a Nat tick count, and fallible paths as
Option/Except.  External collaborators (the std IP parser, the GPU probe
subprocess, the sysinfo process table) appear as explicit parameters.
-/

/-! ### Topic registry (server/handlers.rs, subscribe_topics / unsubscribe_topics)

The Rust registry is a HashMap from topic name to usize refcount.  We model it
as an association list mapping names to Int counts, so that non-negativity of
every count is a provable invariant rather than a typing artifact. -/

/-- Association-list registry modelling the HashMap String to usize
of AppState.active_topics. -/
abbrev Registry := List (String × Int)

/-- Lookup of a key, mirroring HashMap get. -/
def regGet (m : Registry) (k : String) : Option Int :=
  match m with
  | [] => none
  | (k', v) :: rest => if k' = k then some v else regGet rest k

/-- Store a value for a key: update in place if present, append otherwise. -/
def regSet (m : Registry) (k : String) (v : Int) : Registry :=
  match m with
  | [] => [(k, v)]
  | (k', v') :: rest => if k' = k then (k', v) :: rest else (k', v') :: regSet rest k v

/-- The refcount of a topic; absent entries count as 0
(mirrors topics.get(t).unwrap_or(and 0)). -/
def regCount (m : Registry) (t : String) : Int :=
  (regGet m t).getD 0

/-- One iteration of the subscribe_topics loop body: or_insert(0), record the
topic if its count was 0, then increment. -/
def subscribeStep (acc : Registry × List String) (t : String) : Registry × List String :=
  let c := (regGet acc.1 t).getD 0
  (regSet acc.1 t (c + 1), if c = 0 then acc.2 ++ [t] else acc.2)

/-- subscribe_topics: increment each topic's refcount and return the list of
topics whose count transitioned from 0 (the loops to start). -/
def subscribe_topics (m : Registry) (topics : List String) : Registry × List String :=
  topics.foldl subscribeStep (m, [])

/-- One iteration of the unsubscribe_topics loop body: decrement only when the
entry exists and is positive, record the topic when the count reaches 0. -/
def unsubscribeStep (acc : Registry × List String) (t : String) : Registry × List String :=
  match regGet acc.1 t with
  | some c =>
    if c > 0 then
      (regSet acc.1 t (c - 1), if c - 1 = 0 then acc.2 ++ [t] else acc.2)
    else (acc.1, acc.2)
  | none => (acc.1, acc.2)

/-- unsubscribe_topics: decrement each topic's refcount (clamping at 0) and
return the list of topics whose count transitioned to 0 (the loops to stop). -/
def unsubscribe_topics (m : Registry) (topics : List String) : Registry × List String :=
  topics.foldl unsubscribeStep (m, [])

/-- A registry operation: one call to subscribe_topics or unsubscribe_topics. -/
inductive RegOp
  | sub (topics : List String)
  | unsub (topics : List String)

/-- Apply one registry operation (registry component only). -/
def applyRegOp (m : Registry) : RegOp → Registry
  | .sub ts => (subscribe_topics m ts).1
  | .unsub ts => (unsubscribe_topics m ts).1

/-- Run a sequence of registry operations from the empty registry. -/
def runRegOps (ops : List RegOp) : Registry :=
  ops.foldl applyRegOp []

/-- Every topic's refcount is non-negative. -/
def regNonneg (m : Registry) : Prop :=
  ∀ t, 0 ≤ regCount m t

/-! ### WS connection cleanup (server/ws.rs, handle_socket)

The connection's local subscription set lives in an
Arc Mutex (Option (HashSet String)); cleanup take()s it and unsubscribes the
taken topics, so a second cleanup finds None and is a no-op. -/

/-- The per-connection state touched by cleanup: the global registry and the
local Option subscription set (None means never subscribed or already taken). -/
structure WsConn where
  registry : Registry
  localSubs : Option (List String)
deriving Repr

/-- The disconnect cleanup of handle_socket: take() the local subscription set
and unsubscribe exactly those topics. -/
def wsCleanup (c : WsConn) : WsConn :=
  match c.localSubs with
  | some ts => { registry := (unsubscribe_topics c.registry ts).1, localSubs := none }
  | none => c

/-! ### Topic expansion (server/ws.rs, expand_topic) -/

/-- expand_topic from server/ws.rs: hierarchical/legacy topic expansion. -/
def expand_topic (topic : String) : List String :=
  if topic = "stats" then
    ["stats", "stats.cpu", "stats.memory", "stats.gpu", "stats.disks", "stats.network",
     "cpu", "memory", "gpu", "disks", "network"]
  else if topic = "cpu" then ["cpu", "stats.cpu"]
  else if topic = "memory" then ["memory", "stats.memory"]
  else if topic = "gpu" then ["gpu", "stats.gpu"]
  else if topic = "disks" then ["disks", "stats.disks"]
  else if topic = "network" ∨ topic = "net" then ["network", "stats.network"]
  else [topic]

/-! ### Wire payload types (server/types.rs)

f64 fields are carried as Lean Float values; no claim inspects them, they are
inert payload data.  u64/i64/i32 become Nat/Int. -/

/-- CpuUsage from types.rs. -/
structure CpuUsage where
  current_load : Float
  current_temp : Float
  current_speed : Float

/-- MemoryUsage from types.rs. -/
structure MemoryUsage where
  used : Nat
  free : Nat
  used_percent : Float

/-- GpuUsage from types.rs. -/
structure GpuUsage where
  current_load : Float
  current_temp : Float
  current_memory : Int

/-- DiskUsage from types.rs. -/
structure DiskUsage where
  fs : String
  used : Nat
  available : Nat
  used_percent : Float

/-- NetworkUsage from types.rs. -/
structure NetworkUsage where
  bytes_sent : Nat
  bytes_recv : Nat

/-- MediaStatus from types.rs. -/
structure MediaStatus where
  status : String
  volume : Option Int
  muted : Option Bool
  playing : Option Bool
  title : Option String
  artist : Option String
  supports_ctrl : Bool
deriving DecidableEq

/-- StreamPayload from types.rs: the SystemStats payload with independently
nullable sub-fields. -/
structure StreamPayload where
  timestamp : Int
  uptime : Nat
  cpu : Option CpuUsage
  memory : Option MemoryUsage
  gpu : Option GpuUsage
  disks : Option (List DiskUsage)
  network : Option NetworkUsage
  media : Option MediaStatus

/-! ### WS SystemStats filter (server/ws.rs, handle_socket send task)

The send task holds subs : Option (HashSet String) (None until the first
subscribe).  We model the set as a List String queried with contains. -/

/-- The SystemStats branch of the send task: given the connection's local
subscription state and an incoming payload, return the message to send
(None when the event is dropped).  Transcribed from ws.rs lines 80-114. -/
def wsStatsFilter (subs : Option (List String)) (payload : StreamPayload) : Option StreamPayload :=
  match subs with
  | none => none
  | some topics =>
    let has_cpu := topics.contains "cpu" || topics.contains "stats.cpu" || topics.contains "stats"
    let has_memory := topics.contains "memory" || topics.contains "stats.memory" || topics.contains "stats"
    let has_gpu := topics.contains "gpu" || topics.contains "stats.gpu" || topics.contains "stats"
    let has_disks := topics.contains "disks" || topics.contains "stats.disks" || topics.contains "stats"
    let has_network := topics.contains "network" || topics.contains "stats.network" || topics.contains "stats"
    let has_content := has_cpu || has_memory || has_gpu || has_disks || has_network
    let filtered : StreamPayload :=
      { payload with
        cpu := if has_cpu then payload.cpu else none
        memory := if has_memory then payload.memory else none
        gpu := if has_gpu then payload.gpu else none
        disks := if has_disks then payload.disks else none
        network := if has_network then payload.network else none
        media := if topics.contains "media" then payload.media else none }
    if has_content || topics.contains "system" then some filtered else none

/-- Spec-side coverage of sub-field X: the set X, stats.X, stats intersects
the subscription set (section 4.6 projection rule). -/
def coversSub (s : List String) (x : String) : Bool :=
  [x, "stats." ++ x, "stats"].any fun t => s.contains t

/-- Spec-side projection (section 4.6): keep sub-field X iff covered, drop
media unless the literal topic media is subscribed. -/
def projectSpec (s : List String) (payload : StreamPayload) : StreamPayload :=
  { payload with
    cpu := if coversSub s "cpu" then payload.cpu else none
    memory := if coversSub s "memory" then payload.memory else none
    gpu := if coversSub s "gpu" then payload.gpu else none
    disks := if coversSub s "disks" then payload.disks else none
    network := if coversSub s "network" then payload.network else none
    media := if s.contains "media" then payload.media else none }

/-- Spec-side filter, following the amended claim: forward iff some sub-field
in cpu, memory, gpu, disks, network is covered by the subscription or the
umbrella alias system is subscribed; an absent set forwards nothing. -/
def wsStatsFilterSpec (subs : Option (List String)) (payload : StreamPayload) : Option StreamPayload :=
  match subs with
  | none => none
  | some s =>
    if (["cpu", "memory", "gpu", "disks", "network"].any fun x => coversSub s x)
        || s.contains "system" then
      some (projectSpec s payload)
    else none

/-! ### GPU sample cache (server/handlers.rs, get_or_update_gpu_stats)

Instant is modelled as a Nat timestamp in nanoseconds; the probe
(gpu::get_gpu_stats, a subprocess call) is an explicit Option parameter. -/

/-- GpuData from server/gpu.rs; last_updated is the Instant of capture,
modelled as nanoseconds on a monotonic clock. -/
structure GpuData where
  vendor : String
  model : String
  vram_total_mb : Nat
  vram_used_mb : Int
  temp_c : Float
  load_percent : Float
  last_updated : Nat

/-- Duration::from_secs in nanoseconds. -/
def durFromSecs (s : Nat) : Nat := s * 1000000000

/-- get_or_update_gpu_stats from server/handlers.rs.  Arguments mirror the
state it reads: the stats.gpu_enabled flag, stats.disk_cache_seconds, the
current cache cell, the current instant, and the outcome the fresh probe
would produce if attempted.  Returns (returned sample, new cache cell). -/
def get_or_update_gpu_stats (gpuEnabled : Bool) (cacheSeconds : Nat)
    (cache : Option GpuData) (now : Nat) (probe : Option GpuData) :
    Option GpuData × Option GpuData :=
  if !gpuEnabled then (none, cache)
  else
    let hit : Option GpuData :=
      match cache with
      | some stats =>
        if now - stats.last_updated < durFromSecs cacheSeconds then some stats else none
      | none => none
    match hit with
    | some stats => (some stats, cache)
    | none =>
      match probe with
      | some fresh => (some fresh, some fresh)
      | none => (cache, cache)

/-! ### Stats loop tick (server/mod.rs, spawn_stats_loop)

One iteration of the loop body, after the sleep.  Sampler snapshots and the
GPU probe outcome are explicit parameters (they are platform reads); the
demand mask and payload assembly are transcribed from the source. -/

/-- Whether a topic's refcount is positive (topics.get(t).unwrap_or(and 0) > 0). -/
def countPos (m : Registry) (t : String) : Bool :=
  regCount m t > 0

/-- The snapshots the stats loop can read from the samplers this tick. -/
structure StatsSamples where
  cpu : CpuUsage
  memory : MemoryUsage
  disks : List DiskUsage
  network : NetworkUsage

/-- Conversion of a GpuData sample to the wire GpuUsage, as in the map closure
of spawn_stats_loop. -/
def gpuDataToUsage (g : GpuData) : GpuUsage :=
  { current_load := g.load_percent
    current_temp := g.temp_c
    current_memory := g.vram_used_mb }

/-- Outcome of one stats-loop iteration. -/
inductive TickResult
  | exitLoop
  | skip
  | publish (p : StreamPayload)

/-- One iteration of spawn_stats_loop after the sleep: exit when disabled,
skip when there are no receivers or the demand mask is all-false, otherwise
assemble and publish a StreamPayload.  The demand mask, the conditional
refreshes and the payload assembly follow mod.rs lines 170-314. -/
def statsTick (enabled : Bool) (receiverCount : Nat) (m : Registry)
    (gpuEnabled : Bool) (cacheSeconds : Nat) (gpuCache : Option GpuData) (now : Nat)
    (gpuProbe : Option GpuData) (ts : Int) (up : Nat) (s : StatsSamples) : TickResult :=
  if !enabled then .exitLoop
  else if receiverCount = 0 then .skip
  else
    let need_cpu := countPos m "cpu" || countPos m "stats.cpu" || countPos m "stats"
    let need_mem := countPos m "memory" || countPos m "stats.memory" || countPos m "stats"
    let need_gpu := countPos m "gpu" || countPos m "stats.gpu" || countPos m "stats"
    let need_disks := countPos m "disks" || countPos m "stats.disks" || countPos m "stats"
    let need_net := countPos m "network" || countPos m "net" || countPos m "stats.network" || countPos m "stats"
    if !need_cpu && !need_mem && !need_gpu && !need_disks && !need_net then .skip
    else
      .publish
        { timestamp := ts
          uptime := up
          cpu := if need_cpu then some s.cpu else none
          memory := if need_mem then some s.memory else none
          gpu :=
            if need_gpu then
              ((get_or_update_gpu_stats gpuEnabled cacheSeconds gpuCache now gpuProbe).1).map
                gpuDataToUsage
            else none
          disks := if need_disks then some s.disks else none
          network := if need_net then some s.network else none
          media := none }

/-- The published payload of a tick, if any. -/
def statsTickPayload (enabled : Bool) (receiverCount : Nat) (m : Registry)
    (gpuEnabled : Bool) (cacheSeconds : Nat) (gpuCache : Option GpuData) (now : Nat)
    (gpuProbe : Option GpuData) (ts : Int) (up : Nat) (s : StatsSamples) : Option StreamPayload :=
  match statsTick enabled receiverCount m gpuEnabled cacheSeconds gpuCache now gpuProbe ts up s with
  | .publish p => some p
  | _ => none

/-! ### IP matching and auth middleware (server/mod.rs)

IpAddr is modelled as a tagged Nat of address bits (big-endian value of the
octets, as produced by from_be_bytes); the std string-to-IpAddr parser is an
explicit function parameter. -/

/-- std::net::IpAddr: the address bits as a big-endian natural. -/
inductive IpAddr
  | v4 (bits : Nat)
  | v6 (bits : Nat)
deriving DecidableEq

/-- ip_matches_cidr from server/mod.rs: family agreement, prefix-length bound
check, then masked comparison with the high bits of a big-endian mask
(mask arithmetic is on the 2^32 / 2^128 residue, as for u32/u128). -/
def ip_matches_cidr (client network : IpAddr) (plen : Nat) : Bool :=
  match client, network with
  | .v4 c, .v4 n =>
    if plen > 32 then false
    else
      let mask := if plen = 0 then 0 else ((2 ^ 32 - 1) <<< (32 - plen)) % 2 ^ 32
      (c &&& mask) = (n &&& mask)
  | .v6 c, .v6 n =>
    if plen > 128 then false
    else
      let mask := if plen = 0 then 0 else ((2 ^ 128 - 1) <<< (128 - plen)) % 2 ^ 128
      (c &&& mask) = (n &&& mask)
  | _, _ => false

/-- str::parse::<u8> on the slice after the slash: optional leading plus sign,
otherwise decimal digits only, value at most 255. -/
def parseU8 (s : String) : Option Nat :=
  let t := if s.startsWith "+" then s.drop 1 else s
  match t.toNat? with
  | some n => if n ≤ 255 then some n else none
  | none => none

/-- str::split_once on the slash character: split at the first occurrence. -/
def splitOnceSlash (s : String) : Option (String × String) :=
  match s.splitOn "/" with
  | [] => none
  | [_] => none
  | h :: rest => some (h, String.intercalate "/" rest)

/-- is_ip_in_list from server/mod.rs.  parseIp stands for the std FromStr
parser for IpAddr (external library code); clientIp is the rendered remote
address string. -/
def is_ip_in_list (parseIp : String → Option IpAddr) (clientIp : String)
    (list : List String) : Bool :=
  match parseIp clientIp with
  | none => false
  | some client =>
    list.any fun entry =>
      entry = clientIp ||
        (entry.contains '/' &&
          match splitOnceSlash entry with
          | some (network, plenStr) =>
            match parseIp network, parseU8 plenStr with
            | some netIp, some plen => ip_matches_cidr client netIp plen
            | _, _ => false
          | none => false)

/-- Decision of the auth middleware for one request. -/
inductive AuthDecision
  | forbidden
  | allow
  | unauthorized
deriving DecidableEq

/-- The Bearer token of an Authorization header value, when present
(header.to_str().ok().and_then(strip of the Bearer prefix)). -/
def bearerToken (authHeader : Option String) : Option String :=
  authHeader.bind fun h => if h.startsWith "Bearer " then some (h.drop 7) else none

/-- Whether a raw query string carries a matching api_key parameter:
split on the ampersand, strip the api_key= front of each parameter. -/
def queryHasApiKey (query : Option String) (required : String) : Bool :=
  match query with
  | none => false
  | some q =>
    (q.splitOn "&").any fun param =>
      if param.startsWith "api_key=" then param.drop 8 = required else false

/-- auth_middleware from server/mod.rs, as a decision function of the config
snapshot it clones out, the rendered client address, the request path, the raw
query string and the Authorization header value. -/
def auth_middleware (enabled : Bool) (apiKey : Option String)
    (allowedIps blockedIps : List String) (parseIp : String → Option IpAddr)
    (clientIp : String) (path : String) (query : Option String)
    (authHeader : Option String) : AuthDecision :=
  if !blockedIps.isEmpty && is_ip_in_list parseIp clientIp blockedIps then .forbidden
  else if !enabled then .allow
  else if is_ip_in_list parseIp clientIp allowedIps then .allow
  else
    match apiKey with
    | none => .allow
    | some required =>
      if bearerToken authHeader = some required then .allow
      else if path = "/api/ws" && queryHasApiKey query required then .allow
      else .unauthorized

/-- The seven-step cascade as the spec states it (section 4.9): blocked 403;
auth disabled allows; allowlisted allows; no key allows; Bearer match allows;
WS-endpoint query key match allows; otherwise 401. -/
def authCascadeSpec (enabled : Bool) (apiKey : Option String)
    (allowedIps blockedIps : List String) (parseIp : String → Option IpAddr)
    (clientIp : String) (path : String) (query : Option String)
    (authHeader : Option String) : AuthDecision :=
  if is_ip_in_list parseIp clientIp blockedIps then .forbidden
  else if !enabled then .allow
  else if is_ip_in_list parseIp clientIp allowedIps then .allow
  else
    match apiKey with
    | none => .allow
    | some required =>
      if bearerToken authHeader = some required then .allow
      else if path = "/api/ws" && queryHasApiKey query required then .allow
      else .unauthorized

/-! ### Configuration and its mutation commands (config.rs, lib.rs) -/

/-- ServerConfig from config.rs (port is a u16). -/
structure ServerConfig where
  port : Nat
  host : String
deriving DecidableEq

/-- DisplayConfig from config.rs. -/
structure DisplayConfig where
  hostname : String
deriving DecidableEq

/-- FeaturesConfig from config.rs. -/
structure FeaturesConfig where
  enable_shutdown : Bool
  enable_restart : Bool
  enable_hibernate : Bool
  enable_sleep : Bool
  enable_system : Bool
  enable_usage : Bool
  enable_stats : Bool
  enable_media : Bool
  enable_processes : Bool
  enable_stream : Bool
  enable_autostart : Bool
deriving DecidableEq

/-- StatsConfig from config.rs. -/
structure StatsConfig where
  gpu_enabled : Bool
  disk_cache_seconds : Nat
  stream_interval_seconds : Nat
deriving DecidableEq

/-- AuthConfig from config.rs. -/
structure AuthConfig where
  enabled : Bool
  api_key : Option String
  allowed_ips : List String
  blocked_ips : List String
deriving DecidableEq

/-- TopicConfig from config.rs. -/
structure TopicConfig where
  enabled : Bool
  interval_ms : Nat
deriving DecidableEq

/-- WebSocketConfig from config.rs. -/
structure WebSocketConfig where
  stats : TopicConfig
  media : TopicConfig
  processes : TopicConfig
deriving DecidableEq

/-- AppConfig from config.rs. -/
structure AppConfig where
  server : ServerConfig
  display : DisplayConfig
  features : FeaturesConfig
  stats : StatsConfig
  auth : AuthConfig
  websocket : WebSocketConfig
deriving DecidableEq

/-- The compile-time default configuration (impl Default for AppConfig). -/
def defaultAppConfig : AppConfig :=
  { server := { port := 9990, host := "0.0.0.0" }
    display := { hostname := "" }
    features :=
      { enable_shutdown := false
        enable_restart := false
        enable_hibernate := true
        enable_sleep := true
        enable_system := true
        enable_usage := true
        enable_stats := true
        enable_media := true
        enable_processes := true
        enable_stream := true
        enable_autostart := true }
    stats := { gpu_enabled := true, disk_cache_seconds := 30, stream_interval_seconds := 2 }
    auth := { enabled := false, api_key := none, allowed_ips := [], blocked_ips := [] }
    websocket :=
      { stats := { enabled := true, interval_ms := 1000 }
        media := { enabled := true, interval_ms := 500 }
        processes := { enabled := true, interval_ms := 3000 } } }

/-- update_ws_interval from lib.rs: bound check first, then the topic match;
Except.error leaves the shared config untouched in the source (the mutation
happens only on the Ok path). -/
def update_ws_interval (cfg : AppConfig) (topic : String) (interval_ms : Nat) :
    Except String AppConfig :=
  if interval_ms < 100 || interval_ms > 60000 then
    .error "Interval must be between 100ms and 60000ms"
  else
    match topic with
    | "stats" => .ok { cfg with websocket.stats.interval_ms := interval_ms }
    | "media" => .ok { cfg with websocket.media.interval_ms := interval_ms }
    | "processes" => .ok { cfg with websocket.processes.interval_ms := interval_ms }
    | _ => .error "Invalid topic. Use: stats, media, or processes"

/-- The recognized fields of the update_config JSON object, flattened: each
Option is the result of the corresponding get/as_u64-as_str-as_bool chain. -/
structure ConfigUpdates where
  serverPort : Option Nat
  serverHost : Option String
  displayHostname : Option String
  statsGpuEnabled : Option Bool
  statsDiskCacheSeconds : Option Nat
  statsStreamIntervalSeconds : Option Nat
  wsStatsEnabled : Option Bool
  wsStatsIntervalMs : Option Nat
  wsMediaEnabled : Option Bool
  wsMediaIntervalMs : Option Nat
  wsProcessesEnabled : Option Bool
  wsProcessesIntervalMs : Option Nat

/-- An all-absent updates object. -/
def emptyUpdates : ConfigUpdates :=
  { serverPort := none, serverHost := none, displayHostname := none
    statsGpuEnabled := none, statsDiskCacheSeconds := none
    statsStreamIntervalSeconds := none, wsStatsEnabled := none
    wsStatsIntervalMs := none, wsMediaEnabled := none, wsMediaIntervalMs := none
    wsProcessesEnabled := none, wsProcessesIntervalMs := none }

/-- update_config from lib.rs: apply every present field in source order with
no validation (the port is truncated to u16 by the as-cast); always Ok. -/
def update_config (cfg : AppConfig) (u : ConfigUpdates) : Except String AppConfig :=
  let cfg := match u.serverPort with
    | some p => { cfg with server.port := p % 65536 }
    | none => cfg
  let cfg := match u.serverHost with
    | some h => { cfg with server.host := h }
    | none => cfg
  let cfg := match u.displayHostname with
    | some h => { cfg with display.hostname := h }
    | none => cfg
  let cfg := match u.statsGpuEnabled with
    | some b => { cfg with stats.gpu_enabled := b }
    | none => cfg
  let cfg := match u.statsDiskCacheSeconds with
    | some n => { cfg with stats.disk_cache_seconds := n }
    | none => cfg
  let cfg := match u.statsStreamIntervalSeconds with
    | some n => { cfg with stats.stream_interval_seconds := n }
    | none => cfg
  let cfg := match u.wsStatsEnabled with
    | some b => { cfg with websocket.stats.enabled := b }
    | none => cfg
  let cfg := match u.wsStatsIntervalMs with
    | some n => { cfg with websocket.stats.interval_ms := n }
    | none => cfg
  let cfg := match u.wsMediaEnabled with
    | some b => { cfg with websocket.media.enabled := b }
    | none => cfg
  let cfg := match u.wsMediaIntervalMs with
    | some n => { cfg with websocket.media.interval_ms := n }
    | none => cfg
  let cfg := match u.wsProcessesEnabled with
    | some b => { cfg with websocket.processes.enabled := b }
    | none => cfg
  let cfg := match u.wsProcessesIntervalMs with
    | some n => { cfg with websocket.processes.interval_ms := n }
    | none => cfg
  .ok cfg

/-! ### Process kill paths (server/ws.rs handle_ws_command, server/handlers.rs kill_process)

The sysinfo process table is a list of entries; killOk records what
process.kill() returns for that entry (true when the signal terminates it). -/

/-- One row of the refreshed process table, with the outcome its kill() call
would have. -/
structure ProcEntry where
  pid : Nat
  name : String
  killOk : Bool
deriving DecidableEq

/-- Outcome of a kill request: HTTP status-like flag, reported count or name,
and the pids actually terminated. -/
structure WsKillOutcome where
  success : Bool
  killedName : Option String
  killedPids : List Nat
deriving DecidableEq

/-- The by-name loop of the WS ProcessKill handler (ws.rs lines 355-365):
try each process whose name matches exactly; on the first successful kill set
success, record the name and break. -/
def wsKillByNameLoop (procs : List ProcEntry) (name : String) : WsKillOutcome :=
  match procs with
  | [] => { success := false, killedName := none, killedPids := [] }
  | p :: rest =>
    if p.name = name then
      if p.killOk then { success := true, killedName := some name, killedPids := [p.pid] }
      else wsKillByNameLoop rest name
    else wsKillByNameLoop rest name

/-- The WS ProcessKill handler body after the feature gate (ws.rs lines
344-377), for a given refreshed process table.  Returns the feedback fields
(success, reported name) and the terminated pids. -/
def ws_process_kill (procs : List ProcEntry) (pid? : Option Nat) (name? : Option String) :
    WsKillOutcome :=
  match pid? with
  | some pid =>
    match procs.find? (fun p => p.pid = pid) with
    | some p =>
      { success := p.killOk
        killedName := some p.name
        killedPids := if p.killOk then [p.pid] else [] }
    | none => { success := false, killedName := none, killedPids := [] }
  | none =>
    match name? with
    | some name => wsKillByNameLoop procs name
    | none => { success := false, killedName := none, killedPids := [] }

/-- Outcome of the HTTP kill handler: 200-vs-404 flag, reported count, and the
pids actually terminated. -/
structure HttpKillOutcome where
  ok : Bool
  count : Nat
  killedPids : List Nat
deriving DecidableEq

/-- The by-name loop of the HTTP kill_process handler (handlers.rs lines
478-487): attempt to kill every process whose name matches exactly, counting
the successes. -/
def httpKillByNameLoop (procs : List ProcEntry) (name : String) : Nat × List Nat :=
  procs.foldl
    (fun acc p =>
      if p.name = name && p.killOk then (acc.1 + 1, acc.2 ++ [p.pid]) else acc)
    (0, [])

/-- The HTTP kill_process handler body after the feature gate (handlers.rs
lines 465-499): pid branch, else name branch, else nothing; 200 iff anything
was killed, otherwise 404. -/
def kill_process (procs : List ProcEntry) (pid? : Option Nat) (name? : Option String) :
    HttpKillOutcome :=
  match pid? with
  | some pid =>
    match procs.find? (fun p => p.pid = pid) with
    | some p =>
      if p.killOk then { ok := true, count := 1, killedPids := [p.pid] }
      else { ok := false, count := 0, killedPids := [] }
    | none => { ok := false, count := 0, killedPids := [] }
  | none =>
    match name? with
    | some name =>
      let r := httpKillByNameLoop procs name
      { ok := r.1 > 0, count := r.1, killedPids := r.2 }
    | none => { ok := false, count := 0, killedPids := [] }

/-! ## Theorems -/

/-- Looking up the key just stored returns the stored value. -/
theorem regGet_set_self (m : Registry) (k : String) (v : Int) :
    regGet (regSet m k v) k = some v := by
  induction m with
  | nil => simp [regSet, regGet]
  | cons p rest ih =>
    by_cases h : p.1 = k
    · simp [regSet, regGet, h]
    · simp [regSet, regGet, h, ih]

/-- Storing one key leaves every other key's binding unchanged. -/
theorem regGet_set_ne (m : Registry) (k k' : String) (v : Int) (h : k' ≠ k) :
    regGet (regSet m k v) k' = regGet m k' := by
  induction m with
  | nil => simp [regSet, regGet, Ne.symm h]
  | cons p rest ih =>
    by_cases hp : p.1 = k
    · simp [regSet, regGet, hp, Ne.symm h]
    · by_cases hp' : p.1 = k'
      · simp [regSet, regGet, hp, hp', h]
      · simp [regSet, regGet, hp, hp', ih]

/-- Count after a store, at the stored key. -/
theorem regCount_set_self (m : Registry) (k : String) (v : Int) :
    regCount (regSet m k v) k = v := by
  simp [regCount, regGet_set_self]

/-- Count after a store, at a different key. -/
theorem regCount_set_ne (m : Registry) (k k' : String) (v : Int) (h : k' ≠ k) :
    regCount (regSet m k v) k' = regCount m k' := by
  simp [regCount, regGet_set_ne m k k' v h]

/-- Invariant of the subscribe_topics fold: the final count of a topic grows by
its number of occurrences, and a topic lands in the start list exactly when it
occurs and its incoming count was 0 (given a non-negative incoming count). -/
theorem subscribe_fold_spec (ts : List String) :
    ∀ (m : Registry) (acc : List String) (t : String), 0 ≤ regCount m t →
      regCount (ts.foldl subscribeStep (m, acc)).1 t = regCount m t + ts.count t ∧
      (t ∈ (ts.foldl subscribeStep (m, acc)).2 ↔ t ∈ acc ∨ (t ∈ ts ∧ regCount m t = 0)) := by
  induction ts with
  | nil => intro m acc t hm; simp
  | cons h tl ih =>
    intro m acc t hm
    have hstep : subscribeStep (m, acc) h =
        (regSet m h (regCount m h + 1), if regCount m h = 0 then acc ++ [h] else acc) := by
      simp [subscribeStep, regCount]
    rw [List.foldl_cons, hstep]
    by_cases hth : t = h
    · subst hth
      have hm1 : 0 ≤ regCount (regSet m t (regCount m t + 1)) t := by
        rw [regCount_set_self]; omega
      obtain ⟨hcount, hmem⟩ := ih (regSet m t (regCount m t + 1)) _ t hm1
      constructor
      · rw [hcount, regCount_set_self]
        simp [List.count_cons]
        omega
      · rw [hmem, regCount_set_self]
        by_cases hz : regCount m t = 0
        · simp [hz]
        · have : ¬(regCount m t + 1 = 0) := by omega
          simp [hz, this]
    · have hm1 : 0 ≤ regCount (regSet m h (regCount m h + 1)) t := by
        rw [regCount_set_ne m h t _ hth]; exact hm
      obtain ⟨hcount, hmem⟩ := ih (regSet m h (regCount m h + 1)) _ t hm1
      constructor
      · rw [hcount, regCount_set_ne m h t _ hth]
        simp [List.count_cons, hth]
      · rw [hmem, regCount_set_ne m h t _ hth]
        have hacc : ∀ l : List String, t ∈ (if regCount m h = 0 then l ++ [h] else l) ↔ t ∈ l := by
          intro l
          by_cases hz : regCount m h = 0 <;> simp [hz, hth]
        rw [hacc]
        simp [hth]

/-- Invariant of the unsubscribe_topics fold: the final count of a topic is its
incoming count minus its occurrences, clamped at 0, and a topic lands in the
stop list exactly when its incoming count was positive and is exhausted by its
occurrences (given a non-negative incoming count). -/
theorem unsubscribe_fold_spec (ts : List String) :
    ∀ (m : Registry) (acc : List String) (t : String), 0 ≤ regCount m t →
      regCount (ts.foldl unsubscribeStep (m, acc)).1 t = max 0 (regCount m t - ts.count t) ∧
      (t ∈ (ts.foldl unsubscribeStep (m, acc)).2 ↔
        t ∈ acc ∨ (0 < regCount m t ∧ regCount m t ≤ ts.count t)) := by
  induction ts with
  | nil =>
    intro m acc t hm
    simp
    omega
  | cons h tl ih =>
    intro m acc t hm
    rw [List.foldl_cons]
    rcases hget : regGet m h with _ | c
    · have hstep : unsubscribeStep (m, acc) h = (m, acc) := by
        simp [unsubscribeStep, hget]
      rw [hstep]
      obtain ⟨hcount, hmem⟩ := ih m acc t hm
      by_cases hth : t = h
      · subst hth
        have hz : regCount m t = 0 := by simp [regCount, hget]
        constructor
        · rw [hcount, hz]; simp [List.count_cons]; omega
        · rw [hmem, hz]; simp
      · constructor
        · rw [hcount]; simp [List.count_cons, hth]
        · rw [hmem]; simp [List.count_cons, hth]
    · by_cases hc : c > 0
      · have hstep : unsubscribeStep (m, acc) h =
            (regSet m h (c - 1), if c - 1 = 0 then acc ++ [h] else acc) := by
          simp [unsubscribeStep, hget, hc]
        rw [hstep]
        by_cases hth : t = h
        · subst hth
          have hcm : regCount m t = c := by simp [regCount, hget]
          have hm1 : 0 ≤ regCount (regSet m t (c - 1)) t := by
            rw [regCount_set_self]; omega
          obtain ⟨hcount, hmem⟩ := ih (regSet m t (c - 1)) _ t hm1
          constructor
          · rw [hcount, regCount_set_self, hcm]
            simp [List.count_cons]
            omega
          · rw [hmem, regCount_set_self, hcm]
            by_cases h1 : c - 1 = 0
            · simp [h1, List.count_cons]
              omega
            · simp [h1, List.count_cons]
              constructor
              · rintro (ha | ⟨hpos, hle⟩)
                · exact Or.inl ha
                · exact Or.inr ⟨hc, by omega⟩
              · rintro (ha | ⟨hpos, hle⟩)
                · exact Or.inl ha
                · exact Or.inr ⟨by omega, by omega⟩
        · have hm1 : 0 ≤ regCount (regSet m h (c - 1)) t := by
            rw [regCount_set_ne m h t _ hth]; exact hm
          obtain ⟨hcount, hmem⟩ := ih (regSet m h (c - 1)) _ t hm1
          constructor
          · rw [hcount, regCount_set_ne m h t _ hth]
            simp [List.count_cons, hth]
          · rw [hmem, regCount_set_ne m h t _ hth]
            have hacc : ∀ l : List String, t ∈ (if c - 1 = 0 then l ++ [h] else l) ↔ t ∈ l := by
              intro l
              by_cases hz : c - 1 = 0 <;> simp [hz, hth]
            rw [hacc]
            simp [hth, List.count_cons]
      · have hstep : unsubscribeStep (m, acc) h = (m, acc) := by
          simp [unsubscribeStep, hget, hc]
        rw [hstep]
        obtain ⟨hcount, hmem⟩ := ih m acc t hm
        by_cases hth : t = h
        · subst hth
          have hz : regCount m t = c := by simp [regCount, hget]
          have hc0 : regCount m t = 0 := by omega
          constructor
          · rw [hcount, hc0]; simp [List.count_cons]; omega
          · rw [hmem, hc0]; simp
        · constructor
          · rw [hcount]; simp [List.count_cons, hth]
          · rw [hmem]; simp [List.count_cons, hth]

/-- C1: starting from the empty registry, every refcount stays non-negative
under any sequence of subscribe_topics / unsubscribe_topics calls;
unsubscribe_topics decrements only positive counts (an absent or zero entry
leaves the registry unchanged); a topic is reported for loop-start exactly
when its count transitions 0 to positive, and for loop-stop exactly when its
positive count transitions to 0. -/
theorem topic_registry_refcounts :
    (∀ (ops : List RegOp) (t : String), 0 ≤ regCount (runRegOps ops) t) ∧
    (∀ (m : Registry) (t : String), regGet m t = none ∨ regGet m t = some 0 →
      unsubscribe_topics m [t] = (m, [])) ∧
    (∀ (m : Registry) (ts : List String) (t : String), 0 ≤ regCount m t →
      regCount (subscribe_topics m ts).1 t = regCount m t + ts.count t ∧
      (t ∈ (subscribe_topics m ts).2 ↔
        regCount m t = 0 ∧ 0 < regCount (subscribe_topics m ts).1 t)) ∧
    (∀ (m : Registry) (ts : List String) (t : String), 0 ≤ regCount m t →
      regCount (unsubscribe_topics m ts).1 t = max 0 (regCount m t - ts.count t) ∧
      (t ∈ (unsubscribe_topics m ts).2 ↔
        0 < regCount m t ∧ regCount (unsubscribe_topics m ts).1 t = 0)) := by
  have hsub : ∀ (m : Registry) (ts : List String) (t : String), 0 ≤ regCount m t →
      regCount (subscribe_topics m ts).1 t = regCount m t + ts.count t ∧
      (t ∈ (subscribe_topics m ts).2 ↔
        regCount m t = 0 ∧ 0 < regCount (subscribe_topics m ts).1 t) := by
    intro m ts t hm
    obtain ⟨hcount, hmem⟩ := subscribe_fold_spec ts m [] t hm
    refine ⟨hcount, ?_⟩
    simp only [subscribe_topics]
    rw [hmem, hcount]
    simp only [List.not_mem_nil, false_or]
    constructor
    · rintro ⟨hts, hz⟩
      have : 0 < ts.count t := List.count_pos_iff.mpr hts
      constructor
      · exact hz
      · rw [hz]; omega
    · rintro ⟨hz, hpos⟩
      rw [hz] at hpos
      have : 0 < ts.count t := by omega
      exact ⟨List.count_pos_iff.mp this, hz⟩
  have hunsub : ∀ (m : Registry) (ts : List String) (t : String), 0 ≤ regCount m t →
      regCount (unsubscribe_topics m ts).1 t = max 0 (regCount m t - ts.count t) ∧
      (t ∈ (unsubscribe_topics m ts).2 ↔
        0 < regCount m t ∧ regCount (unsubscribe_topics m ts).1 t = 0) := by
    intro m ts t hm
    obtain ⟨hcount, hmem⟩ := unsubscribe_fold_spec ts m [] t hm
    refine ⟨hcount, ?_⟩
    simp only [unsubscribe_topics]
    rw [hmem, hcount]
    simp only [List.not_mem_nil, false_or]
    constructor
    · rintro ⟨hpos, hle⟩
      exact ⟨hpos, by omega⟩
    · rintro ⟨hpos, hz⟩
      exact ⟨hpos, by omega⟩
  refine ⟨?_, ?_, hsub, hunsub⟩
  · have key : ∀ (ops : List RegOp) (m : Registry), (∀ u, 0 ≤ regCount m u) →
        ∀ u, 0 ≤ regCount (ops.foldl applyRegOp m) u := by
      intro ops
      induction ops with
      | nil => intro m hm u; exact hm u
      | cons op rest ih =>
        intro m hm u
        rw [List.foldl_cons]
        apply ih
        intro w
        cases op with
        | sub ts =>
          have h1 := (hsub m ts w (hm w)).1
          simp only [applyRegOp]
          rw [h1]
          have h2 := hm w
          omega
        | unsub ts =>
          have h1 := (hunsub m ts w (hm w)).1
          simp only [applyRegOp]
          rw [h1]
          omega
    intro ops t
    exact key ops [] (by intro u; simp [regCount, regGet]) t
  · intro m t h
    rcases h with h | h <;>
      simp [unsubscribe_topics, unsubscribeStep, h]

/-- Witness for C1: concrete application at the singleton subscribe of the
topic stats.cpu over the empty registry. -/
theorem topic_registry_refcounts_witness :
    regCount (subscribe_topics [] ["stats.cpu"]).1 "stats.cpu" =
      regCount ([] : Registry) "stats.cpu" + ((["stats.cpu"].count "stats.cpu" : Nat) : Int) :=
  (topic_registry_refcounts.2.2.1 [] ["stats.cpu"] "stats.cpu" (by decide)).1

/-- C3: the WS disconnect cleanup is idempotent on the registry: the first run
takes-and-clears the local subscription set, so a second run finds it absent
and leaves everything (in particular every refcount) unchanged. -/
theorem wsCleanup_idempotent (c : WsConn) :
    wsCleanup (wsCleanup c) = wsCleanup c ∧ (wsCleanup c).localSubs = none := by
  cases hc : c.localSubs with
  | none =>
    have h1 : wsCleanup c = c := by simp [wsCleanup, hc]
    rw [h1]
    exact ⟨h1, hc⟩
  | some ts =>
    have h1 : wsCleanup c =
        { registry := (unsubscribe_topics c.registry ts).1, localSubs := none } := by
      simp [wsCleanup, hc]
    rw [h1]
    exact ⟨rfl, rfl⟩

/-- C4 counterexample: the topic process is not an alias; expand_topic passes
it through verbatim instead of producing the pair processes, process. -/
theorem expand_topic_process_counterexample :
    expand_topic "process" = ["process"] ∧ "processes" ∉ expand_topic "process" := by
  constructor <;> decide

/-- C4 (amended): expand_topic maps stats to its five canonical children plus
the five short aliases (and itself); cpu, memory, gpu, disks expand to the
alias and its canonical form; network and net expand to network, stats.network;
every other topic — including process — passes through verbatim. -/
theorem expand_topic_spec :
    expand_topic "stats" = ["stats", "stats.cpu", "stats.memory", "stats.gpu", "stats.disks",
      "stats.network", "cpu", "memory", "gpu", "disks", "network"] ∧
    expand_topic "cpu" = ["cpu", "stats.cpu"] ∧
    expand_topic "memory" = ["memory", "stats.memory"] ∧
    expand_topic "gpu" = ["gpu", "stats.gpu"] ∧
    expand_topic "disks" = ["disks", "stats.disks"] ∧
    expand_topic "network" = ["network", "stats.network"] ∧
    expand_topic "net" = ["network", "stats.network"] ∧
    ∀ topic : String,
      topic ∉ ["stats", "cpu", "memory", "gpu", "disks", "network", "net"] →
      expand_topic topic = [topic] := by
  refine ⟨by decide, by decide, by decide, by decide, by decide, by decide, by decide, ?_⟩
  intro topic h
  simp only [List.mem_cons, List.not_mem_nil, or_false, not_or] at h
  obtain ⟨h1, h2, h3, h4, h5, h6, h7⟩ := h
  simp [expand_topic, h1, h2, h3, h4, h5, h6, h7]

/-- Witness for C4: the unknown topic media passes through verbatim. -/
theorem expand_topic_spec_witness : expand_topic "media" = ["media"] :=
  expand_topic_spec.2.2.2.2.2.2.2 "media" (by decide)

/-- C2 counterexample: a session subscribed to gpu (expanded set gpu,
stats.gpu) receives a SystemStats event whose sub-fields are all null — the
stats loop publishes exactly such payloads when only gpu is demanded and the
probe fails.  The event is forwarded (with every sub-field still null)
although no sub-field remains non-null after projection and system is not
subscribed. -/
theorem wsStatsFilter_counterexample :
    wsStatsFilter (some ["gpu", "stats.gpu"]) ⟨0, 0, none, none, none, none, none, none⟩ =
      some ⟨0, 0, none, none, none, none, none, none⟩ ∧
    "system" ∉ ["gpu", "stats.gpu"] := by
  constructor
  · rfl
  · decide

/-- C2 (amended): the send-task SystemStats filter forwards an event iff at
least one of the sub-fields cpu, memory, gpu, disks, network is covered by the
subscription set (by the X, stats.X, stats rule) or system is subscribed —
regardless of which payload fields are null; each covered sub-field keeps the
payload's value, uncovered ones are nulled, media is kept only when the
literal topic media is subscribed; a session that never subscribed (absent
set) forwards nothing. -/
theorem wsStatsFilter_eq_spec (subs : Option (List String)) (p : StreamPayload) :
    wsStatsFilter subs p = wsStatsFilterSpec subs p := by
  cases subs with
  | none => rfl
  | some s =>
    simp only [wsStatsFilter, wsStatsFilterSpec, projectSpec, coversSub, List.any_cons,
      List.any_nil, Bool.or_false, Bool.or_assoc]
    rfl

/-- Auxiliary: an empty IP list matches no client. -/
theorem is_ip_in_list_nil (parseIp : String → Option IpAddr) (clientIp : String) :
    is_ip_in_list parseIp clientIp [] = false := by
  unfold is_ip_in_list
  cases parseIp clientIp <;> simp

/-- C6: on every request the middleware decides by the exact seven-step
cascade: blocked IP (exact or CIDR) gives 403 even with auth disabled; then
auth disabled allows the request; then an allowlisted IP passes, bypassing the
token check; then a missing configured key passes; then a matching Bearer
token passes; then, on the WebSocket endpoint path only, a matching api_key
query parameter passes; otherwise 401. -/
theorem auth_middleware_eq_cascade (enabled : Bool) (apiKey : Option String)
    (allowedIps blockedIps : List String) (parseIp : String → Option IpAddr)
    (clientIp path : String) (query authHeader : Option String) :
    auth_middleware enabled apiKey allowedIps blockedIps parseIp clientIp path query authHeader =
      authCascadeSpec enabled apiKey allowedIps blockedIps parseIp clientIp path query authHeader := by
  unfold auth_middleware authCascadeSpec
  cases blockedIps with
  | nil => simp [is_ip_in_list_nil]
  | cons e rest => simp

/-- Auxiliary: comparing two w-bit values under the high mask of the code
(all-ones shifted left by w - p, reduced mod 2^w) is the same as comparing
their top p bits (their right-shifts by w - p). -/
theorem land_mask_eq_iff (w p a b : Nat) (_hp : p ≤ w) (ha : a < 2 ^ w) (hb : b < 2 ^ w) :
    ((a &&& ((2 ^ w - 1) <<< (w - p)) % 2 ^ w) = (b &&& ((2 ^ w - 1) <<< (w - p)) % 2 ^ w)) ↔
      a >>> (w - p) = b >>> (w - p) := by
  constructor
  · intro h
    apply Nat.eq_of_testBit_eq
    intro i
    rw [Nat.testBit_shiftRight, Nat.testBit_shiftRight]
    by_cases hi : w - p + i < w
    · have hbit := congrArg (fun x => x.testBit (w - p + i)) h
      simp only [Nat.testBit_land, Nat.testBit_mod_two_pow, Nat.testBit_shiftLeft,
        Nat.testBit_two_pow_sub_one] at hbit
      have h2 : w - p + i ≥ w - p := Nat.le_add_right _ _
      have h3 : w - p + i - (w - p) < w := by omega
      have h4 : i < w := by omega
      simpa [hi, h2, h3, h4] using hbit
    · have h4 : a < 2 ^ (w - p + i) :=
        lt_of_lt_of_le ha (Nat.pow_le_pow_right (by omega) (by omega))
      have h5 : b < 2 ^ (w - p + i) :=
        lt_of_lt_of_le hb (Nat.pow_le_pow_right (by omega) (by omega))
      rw [Nat.testBit_lt_two_pow h4, Nat.testBit_lt_two_pow h5]
  · intro h
    apply Nat.eq_of_testBit_eq
    intro i
    simp only [Nat.testBit_land, Nat.testBit_mod_two_pow, Nat.testBit_shiftLeft,
      Nat.testBit_two_pow_sub_one]
    by_cases hij : w - p ≤ i
    · have hab : a.testBit i = b.testBit i := by
        have hs := congrArg (fun x => x.testBit (i - (w - p))) h
        simp only [Nat.testBit_shiftRight] at hs
        have heq : w - p + (i - (w - p)) = i := by omega
        rwa [heq] at hs
      rw [hab]
    · simp [hij]

/-- C7: ip_matches_cidr never matches across address families; an out-of-range
plen fails closed; plen 0 matches every address of the same family; and
within bounds membership is exactly bitwise equality of the top plen bits of
the two addresses. -/
theorem ip_matches_cidr_spec :
    (∀ (c n p : Nat), ip_matches_cidr (.v4 c) (.v6 n) p = false ∧
      ip_matches_cidr (.v6 c) (.v4 n) p = false) ∧
    (∀ (c n p : Nat), 32 < p → ip_matches_cidr (.v4 c) (.v4 n) p = false) ∧
    (∀ (c n p : Nat), 128 < p → ip_matches_cidr (.v6 c) (.v6 n) p = false) ∧
    (∀ (c n : Nat), ip_matches_cidr (.v4 c) (.v4 n) 0 = true ∧
      ip_matches_cidr (.v6 c) (.v6 n) 0 = true) ∧
    (∀ (c n p : Nat), p ≤ 32 → c < 2 ^ 32 → n < 2 ^ 32 →
      (ip_matches_cidr (.v4 c) (.v4 n) p = true ↔ c >>> (32 - p) = n >>> (32 - p))) ∧
    (∀ (c n p : Nat), p ≤ 128 → c < 2 ^ 128 → n < 2 ^ 128 →
      (ip_matches_cidr (.v6 c) (.v6 n) p = true ↔ c >>> (128 - p) = n >>> (128 - p))) := by
  refine ⟨?_, ?_, ?_, ?_, ?_, ?_⟩
  · intro c n p; exact ⟨rfl, rfl⟩
  · intro c n p hp; simp [ip_matches_cidr, hp]
  · intro c n p hp; simp [ip_matches_cidr, hp]
  · intro c n
    constructor <;> simp [ip_matches_cidr]
  · intro c n p hp hc hn
    by_cases hz : p = 0
    · subst hz
      simp only [ip_matches_cidr]
      rw [Nat.shiftRight_eq_div_pow, Nat.shiftRight_eq_div_pow]
      rw [Nat.div_eq_of_lt hc, Nat.div_eq_of_lt hn]
      simp
    · have hrange : ¬(p > 32) := by omega
      simp only [ip_matches_cidr, hrange, if_false, hz, if_neg hz, decide_eq_true_eq]
      exact land_mask_eq_iff 32 p c n hp hc hn
  · intro c n p hp hc hn
    by_cases hz : p = 0
    · subst hz
      simp only [ip_matches_cidr]
      rw [Nat.shiftRight_eq_div_pow, Nat.shiftRight_eq_div_pow]
      rw [Nat.div_eq_of_lt hc, Nat.div_eq_of_lt hn]
      simp
    · have hrange : ¬(p > 128) := by omega
      simp only [ip_matches_cidr, hrange, if_false, hz, if_neg hz, decide_eq_true_eq]
      exact land_mask_eq_iff 128 p c n hp hc hn

/-- Witness for C7: the canonical private range 10.0.0.0/8 contains 10.1.2.3:
addresses as big-endian bit values, top 8 bits both equal to 10. -/
theorem ip_matches_cidr_spec_witness :
    ip_matches_cidr (.v4 (10 * 2 ^ 24 + 1 * 2 ^ 16 + 2 * 2 ^ 8 + 3)) (.v4 (10 * 2 ^ 24)) 8 = true :=
  (ip_matches_cidr_spec.2.2.2.2.1 (10 * 2 ^ 24 + 1 * 2 ^ 16 + 2 * 2 ^ 8 + 3) (10 * 2 ^ 24) 8
    (by decide) (by decide) (by decide)).mpr (by decide)

/-- C5 counterexample: with a positive media refcount (and a cpu subscriber so
the tick publishes) the published payload still carries media = null; and with
a positive gpu refcount but no GPU sample available (probe fails, cache empty)
the published payload carries gpu = null.  In both cases a demanded sub-field
is null, refuting the iff. -/
theorem statsTick_counterexample :
    (statsTickPayload true 1 [("media", 1), ("cpu", 1)] true 30 none 0 none 0 0
        ⟨⟨0, 0, 0⟩, ⟨0, 0, 0⟩, [], ⟨0, 0⟩⟩).isSome = true ∧
    ((statsTickPayload true 1 [("media", 1), ("cpu", 1)] true 30 none 0 none 0 0
        ⟨⟨0, 0, 0⟩, ⟨0, 0, 0⟩, [], ⟨0, 0⟩⟩).bind (fun p => p.media)).isSome = false ∧
    countPos [("media", 1), ("cpu", 1)] "media" = true ∧
    (statsTickPayload true 1 [("gpu", 1)] true 30 none 0 none 0 0
        ⟨⟨0, 0, 0⟩, ⟨0, 0, 0⟩, [], ⟨0, 0⟩⟩).isSome = true ∧
    ((statsTickPayload true 1 [("gpu", 1)] true 30 none 0 none 0 0
        ⟨⟨0, 0, 0⟩, ⟨0, 0, 0⟩, [], ⟨0, 0⟩⟩).bind (fun p => p.gpu)).isSome = false ∧
    countPos [("gpu", 1)] "gpu" = true := by
  refine ⟨rfl, rfl, by decide, rfl, rfl, by decide⟩

set_option maxHeartbeats 2000000 in
/-- C5 (amended): every payload the stats loop publishes has cpu, memory,
disks, network non-null exactly when their demand-mask bit (positive refcount
on X, stats.X or stats; for network also the alias net) is set; gpu is
non-null exactly when its mask bit is set AND the GPU cache/probe pipeline
produced a sample; media is always null in stats payloads; and an all-false
mask publishes nothing. -/
theorem statsTick_fields_spec (enabled : Bool) (receiverCount : Nat) (m : Registry)
    (gpuEnabled : Bool) (cacheSeconds : Nat) (gpuCache : Option GpuData) (now : Nat)
    (gpuProbe : Option GpuData) (ts : Int) (up : Nat) (s : StatsSamples) :
    (∀ p, statsTick enabled receiverCount m gpuEnabled cacheSeconds gpuCache now gpuProbe ts up s =
        .publish p →
      p.cpu.isSome = (countPos m "cpu" || countPos m "stats.cpu" || countPos m "stats") ∧
      p.memory.isSome = (countPos m "memory" || countPos m "stats.memory" || countPos m "stats") ∧
      p.gpu.isSome = ((countPos m "gpu" || countPos m "stats.gpu" || countPos m "stats") &&
        ((get_or_update_gpu_stats gpuEnabled cacheSeconds gpuCache now gpuProbe).1).isSome) ∧
      p.disks.isSome = (countPos m "disks" || countPos m "stats.disks" || countPos m "stats") ∧
      p.network.isSome = (countPos m "network" || countPos m "net" ||
        countPos m "stats.network" || countPos m "stats") ∧
      p.media = none) ∧
    ((countPos m "cpu" || countPos m "stats.cpu" || countPos m "stats") = false →
     (countPos m "memory" || countPos m "stats.memory" || countPos m "stats") = false →
     (countPos m "gpu" || countPos m "stats.gpu" || countPos m "stats") = false →
     (countPos m "disks" || countPos m "stats.disks" || countPos m "stats") = false →
     (countPos m "network" || countPos m "net" || countPos m "stats.network" ||
        countPos m "stats") = false →
      statsTickPayload enabled receiverCount m gpuEnabled cacheSeconds gpuCache now gpuProbe
        ts up s = none) := by
  constructor
  · intro p hp
    unfold statsTick at hp
    by_cases he : enabled = true <;>
      by_cases hr : receiverCount = 0 <;>
      by_cases h1 : (countPos m "cpu" || countPos m "stats.cpu" || countPos m "stats") = true <;>
      by_cases h2 : (countPos m "memory" || countPos m "stats.memory" || countPos m "stats") = true <;>
      by_cases h3 : (countPos m "gpu" || countPos m "stats.gpu" || countPos m "stats") = true <;>
      by_cases h4 : (countPos m "disks" || countPos m "stats.disks" || countPos m "stats") = true <;>
      by_cases h5 : (countPos m "network" || countPos m "net" || countPos m "stats.network" ||
        countPos m "stats") = true <;>
      simp_all <;>
      simp [← hp, Option.isSome_map] <;>
      tauto
  · intro h1 h2 h3 h4 h5
    unfold statsTickPayload statsTick
    by_cases he : enabled = true <;>
      by_cases hr : receiverCount = 0 <;>
      simp_all

/-- Witness for C5: a tick with a single cpu subscriber publishes a payload
with cpu non-null and everything else (media included) null. -/
theorem statsTick_fields_spec_witness :
    (({ timestamp := 0, uptime := 0, cpu := some ⟨0, 0, 0⟩, memory := none, gpu := none,
        disks := none, network := none, media := none } : StreamPayload)).media = none :=
  ((statsTick_fields_spec true 1 [("cpu", 1)] true 30 none 0 none 0 0
      ⟨⟨0, 0, 0⟩, ⟨0, 0, 0⟩, [], ⟨0, 0⟩⟩).1
    { timestamp := 0, uptime := 0, cpu := some ⟨0, 0, 0⟩, memory := none, gpu := none,
      disks := none, network := none, media := none } rfl).2.2.2.2.2

/-- C8 counterexample: with GPU stats disabled the function returns None even
though the cache holds a perfectly fresh sample (age 0 < TTL 30s), so the
cached sample is not returned while strictly younger than the TTL, and None is
returned although a sample had succeeded before. -/
theorem get_or_update_gpu_stats_counterexample :
    (get_or_update_gpu_stats false 30 (some ⟨"NVIDIA", "RTX", 8192, 1024, 0, 0, 0⟩) 0 none).1 =
      none ∧
    0 - 0 < durFromSecs 30 := by
  constructor
  · rfl
  · decide

/-- C8 (amended): when stats.gpu_enabled is false the function returns None
without probing and leaves the cache alone; when enabled, a cached sample
strictly younger than the TTL is returned with no probe and no cache write;
otherwise a probe is attempted: on success the fresh sample is stored and
returned, on failure the last good sample (if any) is returned stale, and None
results only when no sample ever succeeded. -/
theorem get_or_update_gpu_stats_spec (cacheSeconds : Nat) (cache : Option GpuData)
    (now : Nat) (probe : Option GpuData) :
    (get_or_update_gpu_stats false cacheSeconds cache now probe = (none, cache)) ∧
    (∀ g, cache = some g → now - g.last_updated < durFromSecs cacheSeconds →
      get_or_update_gpu_stats true cacheSeconds cache now probe = (some g, some g)) ∧
    (∀ g, cache = some g → ¬(now - g.last_updated < durFromSecs cacheSeconds) →
      get_or_update_gpu_stats true cacheSeconds cache now probe =
        match probe with
        | some fresh => (some fresh, some fresh)
        | none => (some g, some g)) ∧
    (cache = none →
      get_or_update_gpu_stats true cacheSeconds cache now probe =
        match probe with
        | some fresh => (some fresh, some fresh)
        | none => (none, none)) := by
  refine ⟨rfl, ?_, ?_, ?_⟩
  · intro g hc hfresh
    subst hc
    simp [get_or_update_gpu_stats, hfresh]
  · intro g hc hstale
    subst hc
    cases probe <;> simp [get_or_update_gpu_stats, hstale]
  · intro hc
    subst hc
    cases probe <;> simp [get_or_update_gpu_stats]

/-- Witness for C8: a fresh cached sample (age 5ns, TTL 30s) is returned as-is
with the cache unchanged. -/
theorem get_or_update_gpu_stats_spec_witness :
    get_or_update_gpu_stats true 30 (some ⟨"V", "M", 0, 0, 0, 0, 5⟩) 10 none =
      (some ⟨"V", "M", 0, 0, 0, 0, 5⟩, some ⟨"V", "M", 0, 0, 0, 0, 5⟩) :=
  (get_or_update_gpu_stats_spec 30 (some ⟨"V", "M", 0, 0, 0, 0, 5⟩) 10 none).2.1
    ⟨"V", "M", 0, 0, 0, 0, 5⟩ rfl (by decide)

/-- C9 counterexample: the batch update_config path applies an out-of-range
interval_ms (5 ms < 100 ms) without error: it succeeds and changes the stats
topic interval of the default configuration from 1000 to 5. -/
theorem update_config_counterexample :
    update_config defaultAppConfig { emptyUpdates with wsStatsIntervalMs := some 5 } =
      .ok { defaultAppConfig with websocket.stats.interval_ms := 5 } ∧
    defaultAppConfig.websocket.stats.interval_ms = 1000 ∧ 5 < 100 := by
  refine ⟨rfl, rfl, by decide⟩

/-- C9 (amended): update_ws_interval rejects every interval_ms outside
[100, 60000] with an error (the source returns before any mutation, so the
configuration is unchanged) and applies in-range values to the matching topic;
the batch update_config path, by contrast, applies any present
websocket.*.interval_ms value (and never returns an error at all). -/
theorem interval_validation_spec :
    (∀ (cfg : AppConfig) (topic : String) (i : Nat), i < 100 ∨ i > 60000 →
      update_ws_interval cfg topic i = .error "Interval must be between 100ms and 60000ms") ∧
    (∀ (cfg : AppConfig) (i : Nat), 100 ≤ i → i ≤ 60000 →
      update_ws_interval cfg "stats" i = .ok { cfg with websocket.stats.interval_ms := i } ∧
      update_ws_interval cfg "media" i = .ok { cfg with websocket.media.interval_ms := i } ∧
      update_ws_interval cfg "processes" i =
        .ok { cfg with websocket.processes.interval_ms := i }) ∧
    (∀ (cfg : AppConfig) (i : Nat),
      update_config cfg { emptyUpdates with wsStatsIntervalMs := some i } =
        .ok { cfg with websocket.stats.interval_ms := i } ∧
      update_config cfg { emptyUpdates with wsMediaIntervalMs := some i } =
        .ok { cfg with websocket.media.interval_ms := i } ∧
      update_config cfg { emptyUpdates with wsProcessesIntervalMs := some i } =
        .ok { cfg with websocket.processes.interval_ms := i }) ∧
    (∀ (cfg : AppConfig) (u : ConfigUpdates), ∃ cfg', update_config cfg u = .ok cfg') := by
  refine ⟨?_, ?_, ?_, ?_⟩
  · intro cfg topic i hi
    have : (i < 100 || i > 60000) = true := by
      rcases hi with h | h <;> simp [h]
    simp [update_ws_interval, this]
  · intro cfg i h1 h2
    have : (i < 100 || i > 60000) = true → False := by
      intro h
      rcases Bool.or_eq_true_iff.mp h with h | h <;> simp at h <;> omega
    refine ⟨?_, ?_, ?_⟩ <;> simp [update_ws_interval] <;> omega
  · intro cfg i
    refine ⟨rfl, rfl, rfl⟩
  · intro cfg u
    exact ⟨_, rfl⟩

/-- Witness for C9: the out-of-range interval 99 is rejected by
update_ws_interval on the default configuration. -/
theorem interval_validation_spec_witness :
    update_ws_interval defaultAppConfig "stats" 99 =
      .error "Interval must be between 100ms and 60000ms" :=
  interval_validation_spec.1 defaultAppConfig "stats" 99 (by decide)

/-- Auxiliary: the fold of the HTTP by-name kill loop counts exactly the
matching entries whose kill succeeds, appending their pids. -/
theorem httpKillByNameLoop_spec (name : String) :
    ∀ (procs : List ProcEntry) (acc : Nat × List Nat),
      (procs.foldl
        (fun acc p =>
          if p.name = name && p.killOk then (acc.1 + 1, acc.2 ++ [p.pid]) else acc) acc).1 =
        acc.1 + (procs.filter (fun p => p.name = name && p.killOk)).length := by
  intro procs
  induction procs with
  | nil => intro acc; simp
  | cons p rest ih =>
    intro acc
    rw [List.foldl_cons]
    by_cases hp : (p.name = name && p.killOk) = true
    · simp only [hp, if_true, List.filter_cons, List.length_cons]
      rw [ih]
      simp [hp]
      omega
    · have hp' : (p.name = name && p.killOk) = false := by
        cases h : (p.name = name && p.killOk) <;> simp_all
      simp only [hp', if_false, List.filter_cons]
      rw [ih]
      simp [hp']

/-- Auxiliary: the WS by-name loop terminates at most one process, and on
success reports exactly the requested name. -/
theorem wsKillByNameLoop_spec (name : String) :
    ∀ procs : List ProcEntry,
      (wsKillByNameLoop procs name).killedPids.length ≤ 1 ∧
      ((wsKillByNameLoop procs name).success = true →
        (wsKillByNameLoop procs name).killedName = some name) := by
  intro procs
  induction procs with
  | nil => simp [wsKillByNameLoop]
  | cons p rest ih =>
    by_cases h1 : p.name = name
    · by_cases h2 : p.killOk = true
      · simp [wsKillByNameLoop, h1, h2]
      · simp only [wsKillByNameLoop, h1, if_true, h2]
        simpa [h2] using ih
    · simp only [wsKillByNameLoop, h1, if_false]
      simpa [h1] using ih

/-- C10: for kill-by-name, the WS handler and the HTTP handler are not
equivalent over the same process table: on a table with two killable
processes named x the WS path terminates exactly one and reports the single
name, while the HTTP path terminates both and reports count 2.  In general the
WS path stops after the first successful kill (at most one pid terminated,
reported name = requested name), whereas the HTTP path's count equals the
number of exact-name matches whose kill succeeds, answering 404 exactly when
that number is 0 — including when neither pid nor name is supplied. -/
theorem process_kill_paths_spec :
    (ws_process_kill [⟨1, "x", true⟩, ⟨2, "x", true⟩] none (some "x") =
      { success := true, killedName := some "x", killedPids := [1] }) ∧
    (kill_process [⟨1, "x", true⟩, ⟨2, "x", true⟩] none (some "x") =
      { ok := true, count := 2, killedPids := [1, 2] }) ∧
    (∀ (procs : List ProcEntry) (name : String),
      (ws_process_kill procs none (some name)).killedPids.length ≤ 1 ∧
      ((ws_process_kill procs none (some name)).success = true →
        (ws_process_kill procs none (some name)).killedName = some name)) ∧
    (∀ (procs : List ProcEntry) (name : String),
      (kill_process procs none (some name)).count =
        (procs.filter (fun p => p.name = name && p.killOk)).length ∧
      ((kill_process procs none (some name)).ok = false ↔
        (kill_process procs none (some name)).count = 0)) ∧
    (∀ procs : List ProcEntry,
      kill_process procs none none = { ok := false, count := 0, killedPids := [] }) := by
  refine ⟨by decide, by decide, ?_, ?_, ?_⟩
  · intro procs name
    exact wsKillByNameLoop_spec name procs
  · intro procs name
    have hc : (kill_process procs none (some name)).count =
        (procs.filter (fun p => p.name = name && p.killOk)).length := by
      simp only [kill_process]
      have := httpKillByNameLoop_spec name procs (0, [])
      simp only [httpKillByNameLoop]
      rw [this]
      simp
    refine ⟨hc, ?_⟩
    simp only [kill_process, httpKillByNameLoop]
    simp only [decide_eq_false_iff_not]
    omega
  · intro procs
    rfl

/-- Witness for C10: on a one-row table whose kill succeeds, the successful WS
by-name path reports exactly the requested name. -/
theorem process_kill_paths_spec_witness :
    (ws_process_kill [⟨7, "firefox", true⟩] none (some "firefox")).killedName =
      some "firefox" :=
  (process_kill_paths_spec.2.2.1 [⟨7, "firefox", true⟩] "firefox").2 rfl
